/-
Verification of the polling-coordinator core of two Home Assistant
integrations: `tankerkoenig` (chunked price fetching with a station
registry) and `pi_hole` (update-entity field projections).

The Python sources are shallowly embedded: dictionaries become
association lists in insertion order, the provider client becomes an
explicit function argument, raised exceptions become `Except.error`,
and log output relevant to the claims is returned explicitly.
-/
import Mathlib

namespace Tankerkoenig

/-- A fuel-station record (`station_data["station"]` in the source):
a dict that at least carries its `"id"` key, modelled as a named field,
plus the remaining attributes. -/
structure Station where
  id : String
  attrs : List (String × String)
deriving DecidableEq, Repr

/-- Result of one `pytankerkoenig.getStationData` call as observed by
`setup`: either a returned envelope dict with `"ok"`, `"message"` and
`"station"` keys, or a raised `pytankerkoenig.customException` carrying
a message (which `setup` converts into a failure envelope). -/
inductive StationReply where
  | envelope (ok : Bool) (message : String) (station : Station)
  | customException (message : String)
deriving DecidableEq, Repr

/-- The `station_data["ok"]` value after the try/except of `setup`:
a raised `customException` is folded into an `ok = False` envelope. -/
def replyOk : StationReply → Bool
  | StationReply.envelope ok _ _ => ok
  | StationReply.customException _ => false

/-- The `station_data["message"]` value after the try/except of `setup`. -/
def replyMessage : StationReply → String
  | StationReply.envelope _ message _ => message
  | StationReply.customException message => message

/-- The `station_data["station"]` record of a success envelope. -/
def replyStation : StationReply → Station
  | StationReply.envelope _ _ station => station
  | StationReply.customException _ => Station.mk "" []

/-- The station registry `self.stations : dict[str, dict]`, as an
association list in insertion order with unique keys. -/
abbrev Registry : Type := List (String × Station)

/-- A per-station price record (the value of one key of the provider's
`"prices"` dict). -/
abbrev PriceRecord : Type := List (String × String)

/-- The merged prices mapping built by `_async_update_data`, a Python
dict keyed by station id in insertion order. -/
abbrev PricesDict : Type := List (String × PriceRecord)

/-- Python `dict.update`: existing keys of `d` keep their position but
take the value from `e` when present there; keys of `e` that are new to
`d` are appended in `e`'s order. -/
def dictUpdate (d e : PricesDict) : PricesDict :=
  (d.map fun p =>
    match e.lookup p.1 with
    | some v => (p.1, v)
    | none => p) ++
  e.filter fun q => (d.lookup q.1).isNone

/-- Result of one `pytankerkoenig.getPriceList` call: the envelope dict
with its `"ok"` and `"message"` keys and an optional `"prices"` key
(`prices = none` models the envelope lacking that key). -/
structure PriceListResult where
  ok : Bool
  message : String
  prices : Option PricesDict
deriving DecidableEq, Repr

/-- The coordinator state set up in `TankerkoenigDataUpdateCoordinator.__init__`:
credential, configured station ids, the station registry, the fuel-type
list, and the framework-held last successful snapshot `self.data`. -/
structure Coordinator where
  api_key : String
  selected_stations : List String
  stations : Registry
  fuel_types : List String
  data : Option PricesDict

/-- `list(self.stations)`: the registry's keys in insertion order. -/
def stationIds (c : Coordinator) : List String :=
  c.stations.map Prod.fst

/-- `add_station`: insert a station keyed by `station["id"]`; if the key
already exists, leave the registry unchanged and emit only the warning
line. Returns the registry and the warnings logged by this call. -/
def add_station (station : Station) (stations : Registry) : Registry × List String :=
  if (stations.lookup station.id).isSome then
    (stations, ["Sensor for station with id " ++ station.id ++ " was already created"])
  else
    (stations ++ [(station.id, station)], [])

/-- The over-capacity warning text of `setup`. -/
def overCapacityWarning : String :=
  "Found more than 10 stations to check. This might invalidate your api-key on the long run. Try using a smaller radius"

/-- The `for station_id in self._selected_stations` loop of `setup`:
resolves each configured id through `getStationData`, aborting with
`False` on the first failure envelope, inserting the returned station
otherwise. Returns `(result, registry, ids attempted in order)`. -/
def setupLoop (getStationData : String → StationReply) :
    List String → Registry → Bool × Registry × List String
  | [], stations => (true, stations, [])
  | sid :: rest, stations =>
    let reply := getStationData sid
    if replyOk reply then
      let out := setupLoop getStationData rest (add_station (replyStation reply) stations).1
      (out.1, out.2.1, sid :: out.2.2)
    else
      (false, stations, [sid])

/-- `TankerkoenigDataUpdateCoordinator.setup`: run the resolution loop
over the configured ids, then (only when the loop completed) emit the
over-capacity warning if the registry exceeds 10 entries. Returns
`(result, updated coordinator, ids attempted, warnings)`. -/
def setup (getStationData : String → StationReply) (c : Coordinator) :
    Bool × Coordinator × List String × List String :=
  let out := setupLoop getStationData c.selected_stations c.stations
  let warnings := if out.1 = true ∧ 10 < out.2.1.length then [overCapacityWarning] else []
  (out.1,
   Coordinator.mk c.api_key c.selected_stations out.2.1 c.fuel_types c.data,
   out.2.2, warnings)

/-- The chunk list of `_async_update_data`:
`station_ids[index * 10 : (index + 1) * 10]` for
`index in range(ceil(len(station_ids) / 10))`. -/
def chunkIds (ids : List String) : List (List String) :=
  (List.range ((ids.length + 9) / 10)).map fun index =>
    (ids.drop (index * 10)).take 10

/-- The chunk loop of `_async_update_data`: call `getPriceList` on each
chunk in order; on `ok = False` raise `UpdateFailed` with the envelope's
message, on a missing `"prices"` key raise the fixed message, otherwise
`prices.update(data["prices"])` and continue. Returns the outcome and
the list of chunk arguments actually passed to the provider. -/
def runChunks (getPriceList : List String → PriceListResult) :
    List (List String) → PricesDict → Except String PricesDict × List (List String)
  | [], prices => (Except.ok prices, [])
  | chunk :: rest, prices =>
    let data := getPriceList chunk
    if data.ok = false then
      (Except.error data.message, [chunk])
    else
      match data.prices with
      | none => (Except.error "No prices in data", [chunk])
      | some p =>
        let out := runChunks getPriceList rest (dictUpdate prices p)
        (out.1, chunk :: out.2)

/-- `TankerkoenigDataUpdateCoordinator._async_update_data`: build the id
list from the registry, fetch it in chunks of at most 10, and either
return the merged prices dict or raise `UpdateFailed`. The coordinator
is threaded through to record that the method leaves its state alone.
Returns `(outcome, provider calls made, coordinator state after)`. -/
def async_update_data (getPriceList : List String → PriceListResult) (c : Coordinator) :
    Except String PricesDict × List (List String) × Coordinator :=
  let station_ids := stationIds c
  let out := runChunks getPriceList (chunkIds station_ids) []
  (out.1, out.2, c)

/-- The outcome of one `_async_update_data` execution. -/
def updateResult (getPriceList : List String → PriceListResult) (c : Coordinator) :
    Except String PricesDict :=
  (async_update_data getPriceList c).1

/-- The `getPriceList` calls issued by one `_async_update_data` execution,
in order, each holding the id list passed to the provider. -/
def updateCalls (getPriceList : List String → PriceListResult) (c : Coordinator) :
    List (List String) :=
  (async_update_data getPriceList c).2.1

/-- Modelled from the spec: the host framework's `DataUpdateCoordinator`
refresh driver is not part of the source fragment; per the spec, a
successful `_async_update_data` result replaces the live snapshot
`self.data`, while a raised `UpdateFailed` leaves the previous snapshot
as the last known good state. -/
def asyncRefresh (getPriceList : List String → PriceListResult) (c : Coordinator) :
    Coordinator :=
  let out := async_update_data getPriceList c
  match out.1 with
  | Except.ok p =>
      Coordinator.mk out.2.2.api_key out.2.2.selected_stations out.2.2.stations
        out.2.2.fuel_types (some p)
  | Except.error _ => out.2.2

/-- A chunk reply the loop accepts: `ok` is true and the envelope has a
`"prices"` key. -/
def goodReply (r : PriceListResult) : Prop :=
  r.ok = true ∧ r.prices.isSome = true

instance : DecidablePred goodReply := fun r =>
  inferInstanceAs (Decidable (r.ok = true ∧ r.prices.isSome = true))

/-- A chunk reply the loop rejects. -/
def badReply (r : PriceListResult) : Prop :=
  r.ok = false ∨ r.prices = none

/-- The `UpdateFailed` message produced for a rejected chunk reply: the
envelope's message when `ok` is false, else the fixed no-prices text. -/
def chunkFailMsg (r : PriceListResult) : String :=
  if r.ok then "No prices in data" else r.message

/-- The key list of a successful outcome, `none` on failure. -/
def resKeys : Except String PricesDict → Option (List String)
  | Except.ok p => some (p.map Prod.fst)
  | Except.error _ => none

/-- 23 distinct station ids for the concrete 23-station scenario. -/
def scenarioAIds : List String :=
  ["s01", "s02", "s03", "s04", "s05", "s06", "s07", "s08", "s09", "s10",
   "s11", "s12", "s13", "s14", "s15", "s16", "s17", "s18", "s19", "s20",
   "s21", "s22", "s23"]

/-- Coordinator whose registry tracks the 23 scenario ids. -/
def scenarioACoord : Coordinator :=
  Coordinator.mk "key" scenarioAIds
    (scenarioAIds.map fun i => (i, Station.mk i [])) ["e5"] none

/-- Provider that answers every chunk with a success envelope holding one
price record per requested id. -/
def scenarioAProvider : List String → PriceListResult := fun chunk =>
  PriceListResult.mk true "" (some (chunk.map fun i => (i, [("e5", "1.50")])))

/-- 11 distinct configured station ids for the concrete 11-station
setup scenario. -/
def scenarioBIds : List String :=
  ["b01", "b02", "b03", "b04", "b05", "b06", "b07", "b08", "b09", "b10", "b11"]

/-- Freshly constructed coordinator configured with the 11 scenario ids
and an empty registry. -/
def scenarioBCoord : Coordinator :=
  Coordinator.mk "key" scenarioBIds [] ["e5"] none

/-- Station client that resolves every id successfully. -/
def scenarioBClient : String → StationReply := fun sid =>
  StationReply.envelope true "" (Station.mk sid [])

/-- Station client for the abort scenario: id `"b03"` fails with a
provider failure envelope, every other id resolves. -/
def scenarioFailClient : String → StationReply := fun sid =>
  if sid = "b03" then StationReply.envelope false "ERR: invalid id" (Station.mk "" [])
  else StationReply.envelope true "" (Station.mk sid [])

/-- 12 distinct station ids for the failing-refresh scenario (two
chunks: ten ids, then two). -/
def scenarioFIds : List String :=
  ["f01", "f02", "f03", "f04", "f05", "f06", "f07", "f08", "f09", "f10",
   "f11", "f12"]

/-- The first chunk of the failing-refresh scenario. -/
def scenarioFChunk1 : List String :=
  ["f01", "f02", "f03", "f04", "f05", "f06", "f07", "f08", "f09", "f10"]

/-- The second (failing) chunk of the failing-refresh scenario. -/
def scenarioFChunk2 : List String := ["f11", "f12"]

/-- Coordinator tracking the 12 scenario ids, with a previous snapshot
in place. -/
def scenarioFCoord : Coordinator :=
  Coordinator.mk "key" scenarioFIds
    (scenarioFIds.map fun i => (i, Station.mk i [])) ["e5"]
    (some [("f01", [("e5", "1.00")])])

/-- Provider that fails with an error envelope on any chunk containing
`"f11"` and succeeds elsewhere. -/
def scenarioFProvider : List String → PriceListResult := fun chunk =>
  if "f11" ∈ chunk then PriceListResult.mk false "ERR: api error" none
  else PriceListResult.mk true "" (some (chunk.map fun i => (i, [("e5", "1.50")])))

end Tankerkoenig

namespace PiHole

/-- The value classes an `api.versions` payload can fall into: a Python
dict (modelled as an association list of string fields) or any non-dict
value (carrying an arbitrary textual representation). -/
inductive PyVersions where
  | dict (entries : List (String × String))
  | nonDict (repr : String)
deriving DecidableEq, Repr

/-- `isinstance(self.api.versions, dict)`. -/
def PyVersions.isDict : PyVersions → Bool
  | PyVersions.dict _ => true
  | PyVersions.nonDict _ => false

/-- `PiHoleUpdateEntityDescription`: the static descriptor of one update
entity, holding the two extraction closures and the release base URL. -/
structure PiHoleUpdateEntityDescription where
  key : String
  name : String
  title : Option String
  entity_category : String
  current_version : List (String × String) → Option String
  latest_version : List (String × String) → Option String
  release_base_url : Option String

/-- Python `str(x)` on an optional string, as used when an f-string
interpolates a `str | None` value. -/
def pyStr : Option String → String
  | some s => s
  | none => "None"

/-- The `core_update_available` descriptor of `UPDATE_ENTITY_TYPES`. -/
def coreUpdateDesc : PiHoleUpdateEntityDescription :=
  PiHoleUpdateEntityDescription.mk "core_update_available" "Core Update Available"
    (some "Pi-hole Core") "diagnostic"
    (fun versions => versions.lookup "core_current")
    (fun versions => versions.lookup "core_latest")
    (some "https://github.com/pi-hole/pi-hole/releases/tag")

/-- The `web_update_available` descriptor of `UPDATE_ENTITY_TYPES`. -/
def webUpdateDesc : PiHoleUpdateEntityDescription :=
  PiHoleUpdateEntityDescription.mk "web_update_available" "Web Update Available"
    (some "Pi-hole Web interface") "diagnostic"
    (fun versions => versions.lookup "web_current")
    (fun versions => versions.lookup "web_latest")
    (some "https://github.com/pi-hole/AdminLTE/releases/tag")

/-- The `ftl_update_available` descriptor of `UPDATE_ENTITY_TYPES`. -/
def ftlUpdateDesc : PiHoleUpdateEntityDescription :=
  PiHoleUpdateEntityDescription.mk "ftl_update_available" "FTL Update Available"
    (some "Pi-hole FTL DNS") "diagnostic"
    (fun versions => versions.lookup "FTL_current")
    (fun versions => versions.lookup "FTL_latest")
    (some "https://github.com/pi-hole/FTL/releases/tag")

/-- The `UPDATE_ENTITY_TYPES` tuple. -/
def UPDATE_ENTITY_TYPES : List PiHoleUpdateEntityDescription :=
  [coreUpdateDesc, webUpdateDesc, ftlUpdateDesc]

/-- `PiHoleUpdateEntity`: one update entity, holding its descriptor and
reading `self.api.versions` (the provider's last versions payload). -/
structure PiHoleUpdateEntity where
  entity_description : PiHoleUpdateEntityDescription
  versions : PyVersions

/-- The `current_version` property: apply the descriptor's extraction
only when the payload is a dict, else `None`. -/
def PiHoleUpdateEntity.current_version (e : PiHoleUpdateEntity) : Option String :=
  match e.versions with
  | PyVersions.dict d => e.entity_description.current_version d
  | PyVersions.nonDict _ => none

/-- The `latest_version` property: apply the descriptor's extraction
only when the payload is a dict, else `None`. -/
def PiHoleUpdateEntity.latest_version (e : PiHoleUpdateEntity) : Option String :=
  match e.versions with
  | PyVersions.dict d => e.entity_description.latest_version d
  | PyVersions.nonDict _ => none

/-- The `release_url` property: `None` unless `self.latest_version` is
truthy (a present, non-empty string), else the f-string
`f"{release_base_url}/{latest_version}"`, recomputed from the current
payload on every read. -/
def PiHoleUpdateEntity.release_url (e : PiHoleUpdateEntity) : Option String :=
  match e.latest_version with
  | some v =>
    if v = "" then none
    else some (pyStr e.entity_description.release_base_url ++ "/" ++ v)
  | none => none

end PiHole

namespace Tankerkoenig

theorem chunkIds_nil : chunkIds [] = [] := rfl

theorem chunkIds_cons_of_ne_nil (ids : List String) (h : ids ≠ []) :
    chunkIds ids = ids.take 10 :: chunkIds (ids.drop 10) := by
  have hlen : 1 ≤ ids.length := List.length_pos.mpr h
  have hm : (ids.length + 9) / 10 = ((ids.drop 10).length + 9) / 10 + 1 := by
    rw [List.length_drop]
    omega
  unfold chunkIds
  rw [hm, List.range_succ_eq_map, List.map_cons]
  congr 1
  simp only [List.map_map]
  apply List.map_congr_left
  intro i _
  have h10 : (i + 1) * 10 = 10 + i * 10 := by omega
  simp [List.drop_drop, Nat.succ_eq_add_one, h10]

theorem chunkIds_flatten (ids : List String) : (chunkIds ids).flatten = ids := by
  rcases eq_or_ne ids [] with h | h
  · subst h; rfl
  · rw [chunkIds_cons_of_ne_nil ids h, List.flatten_cons,
      chunkIds_flatten (ids.drop 10), List.take_append_drop]
termination_by ids.length
decreasing_by
  simp only [List.length_drop]
  have : 1 ≤ ids.length := List.length_pos.mpr h
  omega

theorem chunkIds_length (ids : List String) :
    (chunkIds ids).length = (ids.length + 9) / 10 := by
  simp [chunkIds]

theorem chunkIds_get (ids : List String) (k : Nat)
    (hk : k < (chunkIds ids).length) :
    (chunkIds ids).get ⟨k, hk⟩ = (ids.drop (k * 10)).take 10 := by
  simp [chunkIds]

theorem chunkIds_mem_le_ten (ids : List String) (ch : List String)
    (h : ch ∈ chunkIds ids) : ch.length ≤ 10 := by
  obtain ⟨i, _, rfl⟩ := List.mem_map.mp h
  simp only [List.length_take]
  exact min_le_left _ _

theorem runChunks_all_good (getPriceList : List String → PriceListResult)
    (chunks : List (List String)) (acc : PricesDict)
    (h : ∀ ch ∈ chunks, goodReply (getPriceList ch)) :
    (runChunks getPriceList chunks acc).2 = chunks ∧
      ∃ p, (runChunks getPriceList chunks acc).1 = Except.ok p := by
  induction chunks generalizing acc with
  | nil => exact ⟨rfl, _, rfl⟩
  | cons chunk rest ih =>
    obtain ⟨hok, hsome⟩ := h chunk (List.mem_cons_self _ _)
    obtain ⟨p, hp⟩ := Option.isSome_iff_exists.mp hsome
    have hrest := ih (dictUpdate acc p) (fun ch hch => h ch (List.mem_cons_of_mem _ hch))
    simp only [runChunks, hok, hp]
    constructor
    · simp [hrest.1]
    · obtain ⟨q, hq⟩ := hrest.2
      exact ⟨q, hq⟩

theorem runChunks_first_bad (getPriceList : List String → PriceListResult)
    (pre : List (List String)) (ck : List String) (post : List (List String))
    (acc : PricesDict)
    (hpre : ∀ ch ∈ pre, goodReply (getPriceList ch))
    (hbad : badReply (getPriceList ck)) :
    runChunks getPriceList (pre ++ ck :: post) acc =
      (Except.error (chunkFailMsg (getPriceList ck)), pre ++ [ck]) := by
  induction pre generalizing acc with
  | nil =>
    simp only [List.nil_append, runChunks]
    rcases hbad with hok | hnone
    · simp [hok, chunkFailMsg]
    · rcases h : (getPriceList ck).ok with _ | _
      · simp [h, chunkFailMsg, hnone]
      · simp [h, chunkFailMsg, hnone]
  | cons chunk rest ih =>
    obtain ⟨hok, hsome⟩ := hpre chunk (List.mem_cons_self _ _)
    obtain ⟨p, hp⟩ := Option.isSome_iff_exists.mp hsome
    simp only [List.cons_append, runChunks, hok, hp, List.append_eq]
    rw [ih (dictUpdate acc p) (fun ch hch => hpre ch (List.mem_cons_of_mem _ hch))]
    simp



theorem chunkIds_getElem (ids : List String) (k : Nat)
    (hk : k < (chunkIds ids).length) :
    (chunkIds ids)[k]? = some ((ids.drop (k * 10)).take 10) := by
  have hk' : k < (ids.length + 9) / 10 := by simpa [chunkIds] using hk
  simp [chunkIds, List.getElem?_map, List.getElem?_range, hk']

/-- C1: for a registry of N tracked ids, one execution of
`_async_update_data` that is accepted by the provider issues exactly
`ceil(N / 10)` calls to `getPriceList`, the k-th call receiving the
slice of ids from position `10 * k` to `10 * (k + 1)` of the registry's
insertion order, every chunk holding at most 10 ids and their
concatenation being exactly the registry's id list; for N = 0 no call
is made and the refresh returns the empty mapping; for the concrete
23-station scenario three calls of sizes [10, 10, 3] are made and the
returned mapping holds all 23 keys. -/
theorem chunking_correct (getPriceList : List String → PriceListResult)
    (c : Coordinator)
    (hok : ∀ ch ∈ chunkIds (stationIds c), goodReply (getPriceList ch)) :
    updateCalls getPriceList c = chunkIds (stationIds c)
    ∧ (updateCalls getPriceList c).length = ((stationIds c).length + 9) / 10
    ∧ (∀ k, k < (updateCalls getPriceList c).length →
        (updateCalls getPriceList c)[k]? =
          some (((stationIds c).drop (k * 10)).take 10))
    ∧ (updateCalls getPriceList c).flatten = stationIds c
    ∧ (∀ ch ∈ updateCalls getPriceList c, ch.length ≤ 10)
    ∧ (∃ p, updateResult getPriceList c = Except.ok p)
    ∧ (stationIds c = [] →
        updateCalls getPriceList c = [] ∧ updateResult getPriceList c = Except.ok [])
    ∧ (updateCalls scenarioAProvider scenarioACoord).map List.length = [10, 10, 3]
    ∧ resKeys (updateResult scenarioAProvider scenarioACoord) =
        some (stationIds scenarioACoord)
    ∧ (stationIds scenarioACoord).length = 23 := by
  have hrun := runChunks_all_good getPriceList (chunkIds (stationIds c)) [] hok
  have hcalls : updateCalls getPriceList c = chunkIds (stationIds c) := hrun.1
  refine ⟨hcalls, ?_, ?_, ?_, ?_, ?_, ?_, by decide, by decide, by decide⟩
  · rw [hcalls, chunkIds_length]
  · intro k hk
    rw [hcalls] at hk ⊢
    exact chunkIds_getElem _ k hk
  · rw [hcalls, chunkIds_flatten]
  · intro ch hch
    exact chunkIds_mem_le_ten _ ch (hcalls ▸ hch)
  · exact hrun.2
  · intro h0
    constructor
    · rw [hcalls, h0, chunkIds_nil]
    · show (runChunks getPriceList (chunkIds (stationIds c)) []).1 = Except.ok []
      rw [h0, chunkIds_nil]
      rfl

/-- Witness for C1: the 23-station scenario, where every chunk reply is
a success envelope with one price record per requested id. -/
theorem chunking_correct_witness :
    (∀ ch ∈ chunkIds (stationIds scenarioACoord), goodReply (scenarioAProvider ch))
    ∧ updateCalls scenarioAProvider scenarioACoord = chunkIds (stationIds scenarioACoord) :=
  ⟨by decide, (chunking_correct scenarioAProvider scenarioACoord (by decide)).1⟩


theorem lookup_append (l1 l2 : Registry) (a : String) :
    (l1 ++ l2).lookup a = (l1.lookup a).or (l2.lookup a) := by
  induction l1 with
  | nil => simp [List.lookup]
  | cons p rest ih =>
    obtain ⟨k, v⟩ := p
    by_cases h : a = k
    · subst h
      simp [List.lookup]
    · have hbeq : (a == k) = false := beq_false_of_ne h
      simp [List.lookup, hbeq, ih]

/-- C5: inserting a station whose id is already a registry key leaves
the registry unchanged — same entity count, same stored record — and
emits only the duplicate warning; moreover inserting the same station
twice in a row equals inserting it once, on any registry. -/
theorem add_station_duplicate_idempotent (station : Station) (reg : Registry)
    (h : (reg.lookup station.id).isSome = true) :
    (add_station station reg).1 = reg
    ∧ (add_station station reg).1.length = reg.length
    ∧ (add_station station reg).1.lookup station.id = reg.lookup station.id
    ∧ (add_station station reg).2 =
        ["Sensor for station with id " ++ station.id ++ " was already created"]
    ∧ (∀ (reg2 : Registry) (s2 : Station),
        (add_station s2 (add_station s2 reg2).1).1 = (add_station s2 reg2).1) := by
  have h1 : (add_station station reg).1 = reg := by simp [add_station, h]
  refine ⟨h1, by rw [h1], by rw [h1], by simp [add_station, h], ?_⟩
  intro reg2 s2
  by_cases h2 : (reg2.lookup s2.id).isSome = true
  · simp [add_station, h2]
  · have hmem : ((reg2 ++ [(s2.id, s2)]).lookup s2.id).isSome = true := by
      rw [lookup_append]
      cases hc : reg2.lookup s2.id
      · simp [List.lookup]
      · simp
    simp [add_station, h2, hmem]

/-- Witness for C5: re-inserting station `"a"` into a registry already
holding key `"a"`. -/
theorem add_station_duplicate_idempotent_witness :
    ((([("a", Station.mk "a" [])] : Registry).lookup (Station.mk "a" [("brand", "X")]).id).isSome = true)
    ∧ (add_station (Station.mk "a" [("brand", "X")]) [("a", Station.mk "a" [])]).1 =
        [("a", Station.mk "a" [])] :=
  ⟨by decide,
   (add_station_duplicate_idempotent (Station.mk "a" [("brand", "X")])
     [("a", Station.mk "a" [])] (by decide)).1⟩


theorem setupLoop_all_ok (getStationData : String → StationReply) (ids : List String) :
    ∀ reg : Registry, (∀ i ∈ ids, replyOk (getStationData i) = true) →
      setupLoop getStationData ids reg =
        (true,
         ids.foldl (fun r i => (add_station (replyStation (getStationData i)) r).1) reg,
         ids) := by
  induction ids with
  | nil => intro reg _; rfl
  | cons sid rest ih =>
    intro reg h
    have hok : replyOk (getStationData sid) = true := h sid (List.mem_cons_self _ _)
    simp only [setupLoop, hok, if_true, List.foldl_cons]
    rw [ih _ (fun i hi => h i (List.mem_cons_of_mem _ hi))]

theorem setupLoop_first_bad (getStationData : String → StationReply)
    (pre : List String) (badId : String) (post : List String) :
    ∀ reg : Registry, (∀ i ∈ pre, replyOk (getStationData i) = true) →
      replyOk (getStationData badId) = false →
      setupLoop getStationData (pre ++ badId :: post) reg =
        (false,
         pre.foldl (fun r i => (add_station (replyStation (getStationData i)) r).1) reg,
         pre ++ [badId]) := by
  induction pre with
  | nil =>
    intro reg _ hbad
    simp [setupLoop, hbad]
  | cons sid rest ih =>
    intro reg hpre hbad
    have hok : replyOk (getStationData sid) = true := hpre sid (List.mem_cons_self _ _)
    simp only [List.cons_append, setupLoop, hok, if_true, List.foldl_cons, List.append_eq]
    rw [ih _ (fun i hi => hpre i (List.mem_cons_of_mem _ hi)) hbad]

theorem setupLoop_result_true (getStationData : String → StationReply) (ids : List String) :
    ∀ reg : Registry, (setupLoop getStationData ids reg).1 = true →
      ∀ i ∈ ids, replyOk (getStationData i) = true := by
  induction ids with
  | nil =>
    intro reg _ i hi
    simp at hi
  | cons sid rest ih =>
    intro reg h i hi
    by_cases hok : replyOk (getStationData sid) = true
    · rcases List.mem_cons.mp hi with rfl | hmem
      · exact hok
      · have hstep : (setupLoop getStationData (sid :: rest) reg).1 =
            (setupLoop getStationData rest
              (add_station (replyStation (getStationData sid)) reg).1).1 := by
          simp [setupLoop, hok]
        rw [hstep] at h
        exact ih _ h _ hmem
    · have hfalse : replyOk (getStationData sid) = false := by
        cases hr : replyOk (getStationData sid)
        · rfl
        · exact absurd hr hok
      have hstep : (setupLoop getStationData (sid :: rest) reg).1 = false := by
        simp [setupLoop, hfalse]
      rw [hstep] at h
      exact absurd h (by simp)


theorem add_station_length_le (station : Station) (reg : Registry) :
    reg.length ≤ (add_station station reg).1.length := by
  by_cases h : (reg.lookup station.id).isSome = true
  · simp [add_station, h]
  · simp [add_station, h]

theorem length_le_foldl_add_station (getStationData : String → StationReply)
    (ids : List String) :
    ∀ reg : Registry,
      reg.length ≤
        (ids.foldl (fun r i => (add_station (replyStation (getStationData i)) r).1) reg).length := by
  induction ids with
  | nil => intro reg; simp
  | cons sid rest ih =>
    intro reg
    simp only [List.foldl_cons]
    exact le_trans (add_station_length_le _ _) (ih _)

/-- C4: if the configured id at position k is the first whose
`getStationData` resolution reports failure (a failure envelope,
including the converted `customException` case), then `setup` returns
failure immediately, attempting exactly the ids up to and including the
failing one; and `setup` returns success only when every configured id
resolved successfully. -/
theorem setup_aborts_on_first_failure (getStationData : String → StationReply)
    (c : Coordinator) (pre : List String) (badId : String) (post : List String)
    (hsel : c.selected_stations = pre ++ badId :: post)
    (hpre : ∀ i ∈ pre, replyOk (getStationData i) = true)
    (hbad : replyOk (getStationData badId) = false) :
    (setup getStationData c).1 = false
    ∧ (setup getStationData c).2.2.1 = pre ++ [badId]
    ∧ (setup getStationData c).2.2.2 = []
    ∧ (∀ (gsd2 : String → StationReply) (c2 : Coordinator),
        (setup gsd2 c2).1 = true → ∀ i ∈ c2.selected_stations, replyOk (gsd2 i) = true) := by
  have hloop := setupLoop_first_bad getStationData pre badId post c.stations hpre hbad
  refine ⟨?_, ?_, ?_, ?_⟩
  · simp [setup, hsel, hloop]
  · simp [setup, hsel, hloop]
  · simp [setup, hsel, hloop]
  · intro gsd2 c2 h i hi
    have h' : (setupLoop gsd2 c2.selected_stations c2.stations).1 = true := by
      simpa [setup] using h
    exact setupLoop_result_true gsd2 c2.selected_stations c2.stations h' i hi

/-- Witness for C4: the id `"b03"` at position 2 fails, after `"b01"`
and `"b02"` resolved. -/
theorem setup_aborts_on_first_failure_witness :
    scenarioBCoord.selected_stations =
      ["b01", "b02"] ++ "b03" :: ["b04", "b05", "b06", "b07", "b08", "b09", "b10", "b11"]
    ∧ (setup scenarioFailClient scenarioBCoord).1 = false :=
  ⟨by decide,
   (setup_aborts_on_first_failure scenarioFailClient scenarioBCoord
     ["b01", "b02"] "b03" ["b04", "b05", "b06", "b07", "b08", "b09", "b10", "b11"]
     (by decide) (by decide) (by decide)).1⟩

/-- C10: when `setup` fails at position k, the station registry is not
rolled back: it holds exactly the fold of successful inserts for the
prefix before the failing id; in particular from an initially empty
registry with a non-empty successful prefix it is non-empty. -/
theorem setup_failure_retains_inserts (getStationData : String → StationReply)
    (c : Coordinator) (pre : List String) (badId : String) (post : List String)
    (hsel : c.selected_stations = pre ++ badId :: post)
    (hpre : ∀ i ∈ pre, replyOk (getStationData i) = true)
    (hbad : replyOk (getStationData badId) = false) :
    (setup getStationData c).2.1.stations =
      pre.foldl (fun r i => (add_station (replyStation (getStationData i)) r).1) c.stations
    ∧ (c.stations = [] → pre ≠ [] → (setup getStationData c).2.1.stations ≠ []) := by
  have hloop := setupLoop_first_bad getStationData pre badId post c.stations hpre hbad
  have hreg : (setup getStationData c).2.1.stations =
      pre.foldl (fun r i => (add_station (replyStation (getStationData i)) r).1) c.stations := by
    simp [setup, hsel, hloop]
  refine ⟨hreg, ?_⟩
  intro hnil hne
  obtain ⟨p, rest, rfl⟩ := List.exists_cons_of_ne_nil hne
  rw [hreg, hnil]
  apply List.ne_nil_of_length_pos
  simp only [List.foldl_cons]
  have hone : (1 : Nat) ≤ (add_station (replyStation (getStationData p)) []).1.length := by
    simp [add_station, List.lookup]
  exact lt_of_lt_of_le (lt_of_lt_of_le Nat.zero_lt_one hone)
    (length_le_foldl_add_station getStationData rest _)

/-- Witness for C10: after the `"b03"` failure the registry holds the
two successfully inserted stations. -/
theorem setup_failure_retains_inserts_witness :
    scenarioBCoord.selected_stations =
      ["b01", "b02"] ++ "b03" :: ["b04", "b05", "b06", "b07", "b08", "b09", "b10", "b11"]
    ∧ (setup scenarioFailClient scenarioBCoord).2.1.stations =
      (["b01", "b02"].foldl
        (fun r i => (add_station (replyStation (scenarioFailClient i)) r).1)
        scenarioBCoord.stations) :=
  ⟨by decide,
   (setup_failure_retains_inserts scenarioFailClient scenarioBCoord
     ["b01", "b02"] "b03" ["b04", "b05", "b06", "b07", "b08", "b09", "b10", "b11"]
     (by decide) (by decide) (by decide)).1⟩

/-- C6: when every configured id resolves successfully, `setup` returns
success whatever the resulting registry size; exceeding 10 entries only
adds the over-capacity warning, while 10 or fewer entries produce no
warning, and the registry contents are the full fold of inserts either
way. -/
theorem setup_over_capacity_succeeds (getStationData : String → StationReply)
    (c : Coordinator)
    (hall : ∀ i ∈ c.selected_stations, replyOk (getStationData i) = true) :
    (setup getStationData c).1 = true
    ∧ (setup getStationData c).2.1.stations =
        c.selected_stations.foldl
          (fun r i => (add_station (replyStation (getStationData i)) r).1) c.stations
    ∧ (10 < (setup getStationData c).2.1.stations.length →
        (setup getStationData c).2.2.2 = [overCapacityWarning])
    ∧ ((setup getStationData c).2.1.stations.length ≤ 10 →
        (setup getStationData c).2.2.2 = []) := by
  have hloop := setupLoop_all_ok getStationData c.selected_stations c.stations hall
  have hreg : (setup getStationData c).2.1.stations =
      c.selected_stations.foldl
        (fun r i => (add_station (replyStation (getStationData i)) r).1) c.stations := by
    simp [setup, hloop]
  refine ⟨by simp [setup, hloop], hreg, ?_, ?_⟩
  · intro hgt
    rw [hreg] at hgt
    simp [setup, hloop, hgt]
  · intro hle
    rw [hreg] at hle
    have hnot : ¬ 10 <
        (c.selected_stations.foldl
          (fun r i => (add_station (replyStation (getStationData i)) r).1) c.stations).length :=
      not_lt.mpr hle
    simp [setup, hloop, hnot]

/-- Witness for C6: 11 fresh configured ids all resolve; setup succeeds
with 11 registry entries and the over-capacity warning. -/
theorem setup_over_capacity_succeeds_witness :
    (∀ i ∈ scenarioBCoord.selected_stations, replyOk (scenarioBClient i) = true)
    ∧ (setup scenarioBClient scenarioBCoord).1 = true
    ∧ (setup scenarioBClient scenarioBCoord).2.1.stations.length = 11
    ∧ (setup scenarioBClient scenarioBCoord).2.2.2 = [overCapacityWarning] :=
  ⟨by decide,
   (setup_over_capacity_succeeds scenarioBClient scenarioBCoord (by decide)).1,
   by decide, by decide⟩


theorem asyncRefresh_eq (getPriceList : List String → PriceListResult) (c : Coordinator) :
    asyncRefresh getPriceList c =
      match (runChunks getPriceList (chunkIds (stationIds c)) []).1 with
      | Except.ok p =>
        Coordinator.mk c.api_key c.selected_stations c.stations c.fuel_types (some p)
      | Except.error _ => c := rfl

theorem asyncRefresh_frame (getPriceList : List String → PriceListResult)
    (c : Coordinator) :
    (asyncRefresh getPriceList c).api_key = c.api_key
    ∧ (asyncRefresh getPriceList c).selected_stations = c.selected_stations
    ∧ (asyncRefresh getPriceList c).stations = c.stations
    ∧ (asyncRefresh getPriceList c).fuel_types = c.fuel_types := by
  rw [asyncRefresh_eq]
  cases h : (runChunks getPriceList (chunkIds (stationIds c)) []).1 <;>
    exact ⟨rfl, rfl, rfl, rfl⟩

/-- C2: when chunk k is the first rejected chunk (failure envelope, or a
success envelope lacking the prices payload), `_async_update_data`
raises `UpdateFailed` with the provider's message (or the fixed
no-prices message), issues no call after chunk k, and the coordinator's
last-known-good snapshot is untouched; after a successful refresh
produced snapshot S1, a subsequent failed refresh still reads S1. -/
theorem refresh_fail_fast_atomic (getPriceList : List String → PriceListResult)
    (c : Coordinator) (pre : List (List String)) (ck : List String)
    (post : List (List String))
    (hsplit : chunkIds (stationIds c) = pre ++ ck :: post)
    (hpre : ∀ ch ∈ pre, goodReply (getPriceList ch))
    (hbad : badReply (getPriceList ck)) :
    updateResult getPriceList c = Except.error (chunkFailMsg (getPriceList ck))
    ∧ updateCalls getPriceList c = pre ++ [ck]
    ∧ asyncRefresh getPriceList c = c
    ∧ (asyncRefresh getPriceList c).data = c.data
    ∧ (∀ gp1 : List String → PriceListResult,
        (∀ ch ∈ chunkIds (stationIds c), goodReply (gp1 ch)) →
        ∃ s1, (asyncRefresh gp1 c).data = some s1
          ∧ (asyncRefresh getPriceList (asyncRefresh gp1 c)).data = some s1) := by
  have hrun : runChunks getPriceList (chunkIds (stationIds c)) [] =
      (Except.error (chunkFailMsg (getPriceList ck)), pre ++ [ck]) := by
    rw [hsplit]
    exact runChunks_first_bad getPriceList pre ck post [] hpre hbad
  have h1 : (runChunks getPriceList (chunkIds (stationIds c)) []).1 =
      Except.error (chunkFailMsg (getPriceList ck)) := by rw [hrun]
  have hres : updateResult getPriceList c = Except.error (chunkFailMsg (getPriceList ck)) :=
    h1
  have hcalls : updateCalls getPriceList c = pre ++ [ck] := by
    show (runChunks getPriceList (chunkIds (stationIds c)) []).2 = _
    rw [hrun]
  have hrefresh : asyncRefresh getPriceList c = c := by
    rw [asyncRefresh_eq, h1]
  refine ⟨hres, hcalls, hrefresh, by rw [hrefresh], ?_⟩
  intro gp1 hall
  obtain ⟨_, p, hp⟩ := runChunks_all_good gp1 (chunkIds (stationIds c)) [] hall
  have hr1 : asyncRefresh gp1 c =
      Coordinator.mk c.api_key c.selected_stations c.stations c.fuel_types (some p) := by
    rw [asyncRefresh_eq, hp]
  have hst : stationIds (asyncRefresh gp1 c) = stationIds c := by
    rw [hr1]
    rfl
  refine ⟨p, by rw [hr1], ?_⟩
  rw [asyncRefresh_eq, hst, h1, hr1]

/-- Witness for C2: the 12-station scenario whose second chunk fails
with a provider error envelope. -/
theorem refresh_fail_fast_atomic_witness :
    chunkIds (stationIds scenarioFCoord) = [scenarioFChunk1] ++ scenarioFChunk2 :: []
    ∧ (∀ ch ∈ ([scenarioFChunk1] : List (List String)), goodReply (scenarioFProvider ch))
    ∧ badReply (scenarioFProvider scenarioFChunk2)
    ∧ updateResult scenarioFProvider scenarioFCoord =
        Except.error (chunkFailMsg (scenarioFProvider scenarioFChunk2)) :=
  ⟨by decide, by decide, Or.inl (by decide),
   (refresh_fail_fast_atomic scenarioFProvider scenarioFCoord
     [scenarioFChunk1] scenarioFChunk2 [] (by decide) (by decide)
     (Or.inl (by decide))).1⟩

/-- C9: one execution of `_async_update_data` leaves the coordinator's
registry, selected-station list, API key and fuel-type list unchanged,
whether it returns a prices mapping or raises; the refresh driver only
ever replaces the snapshot field. -/
theorem update_data_frames_state (getPriceList : List String → PriceListResult)
    (c : Coordinator) :
    (async_update_data getPriceList c).2.2 = c
    ∧ (asyncRefresh getPriceList c).api_key = c.api_key
    ∧ (asyncRefresh getPriceList c).selected_stations = c.selected_stations
    ∧ (asyncRefresh getPriceList c).stations = c.stations
    ∧ (asyncRefresh getPriceList c).fuel_types = c.fuel_types := by
  have hf := asyncRefresh_frame getPriceList c
  exact ⟨rfl, hf.1, hf.2.1, hf.2.2.1, hf.2.2.2⟩

end Tankerkoenig

namespace PiHole

/-- C3: for any update entity whose descriptor carries a release base
URL, the `release_url` projection is empty exactly when the
`latest_version` projection is empty (absent, or the falsy empty
string), and whenever `latest_version` is a non-empty string it equals
the base URL, a `"/"`, and the latest-version string; being a plain
function of the current payload, it is recomputed on each read and
stored nowhere. -/
theorem release_url_derived_law (e : PiHoleUpdateEntity) (b : String)
    (hb : e.entity_description.release_base_url = some b) :
    (e.release_url = none ↔ (e.latest_version = none ∨ e.latest_version = some ""))
    ∧ (∀ v, e.latest_version = some v → v ≠ "" →
        e.release_url = some (b ++ "/" ++ v)) := by
  constructor
  · cases h : e.latest_version with
    | none => simp [PiHoleUpdateEntity.release_url, h]
    | some v =>
      by_cases hv : v = ""
      · subst hv
        simp [PiHoleUpdateEntity.release_url, h]
      · simp [PiHoleUpdateEntity.release_url, h, hv]
  · intro v hv hne
    simp [PiHoleUpdateEntity.release_url, hv, hne, hb, pyStr]

/-- Witness for C3: the core descriptor with latest version `"v5.18.3"`. -/
theorem release_url_derived_law_witness :
    (PiHoleUpdateEntity.mk coreUpdateDesc
        (PyVersions.dict [("core_latest", "v5.18.3")])).entity_description.release_base_url =
      some "https://github.com/pi-hole/pi-hole/releases/tag"
    ∧ (PiHoleUpdateEntity.mk coreUpdateDesc
        (PyVersions.dict [("core_latest", "v5.18.3")])).release_url =
      some ("https://github.com/pi-hole/pi-hole/releases/tag" ++ "/" ++ "v5.18.3") :=
  ⟨rfl,
   (release_url_derived_law
     (PiHoleUpdateEntity.mk coreUpdateDesc (PyVersions.dict [("core_latest", "v5.18.3")]))
     "https://github.com/pi-hole/pi-hole/releases/tag" rfl).2 "v5.18.3"
     (by decide) (by decide)⟩

/-- C7: for every descriptor and every versions payload that is not a
dict, the `current_version` and `latest_version` projections return
`None` without error, and consequently `release_url` is `None` too. -/
theorem malformed_payload_projections_empty (d : PiHoleUpdateEntityDescription)
    (v : PyVersions) (hv : v.isDict = false) :
    (PiHoleUpdateEntity.mk d v).current_version = none
    ∧ (PiHoleUpdateEntity.mk d v).latest_version = none
    ∧ (PiHoleUpdateEntity.mk d v).release_url = none := by
  cases v with
  | dict entries => simp [PyVersions.isDict] at hv
  | nonDict r => exact ⟨rfl, rfl, rfl⟩

/-- Witness for C7: the core descriptor reading a non-dict payload. -/
theorem malformed_payload_projections_empty_witness :
    (PyVersions.nonDict "None").isDict = false
    ∧ (PiHoleUpdateEntity.mk coreUpdateDesc (PyVersions.nonDict "None")).current_version = none :=
  ⟨by decide,
   (malformed_payload_projections_empty coreUpdateDesc (PyVersions.nonDict "None")
     (by decide)).1⟩

/-- C8: each extraction closure of `UPDATE_ENTITY_TYPES` uses `dict.get`
and is total on every dict record: applied to a record lacking its key
it returns `None` rather than raising, and the same holds for the
entity-level projection over a dict payload. -/
theorem missing_field_projection_safe (rec : List (String × String)) :
    (rec.lookup "core_current" = none → coreUpdateDesc.current_version rec = none)
    ∧ (rec.lookup "core_latest" = none → coreUpdateDesc.latest_version rec = none)
    ∧ (rec.lookup "web_current" = none → webUpdateDesc.current_version rec = none)
    ∧ (rec.lookup "web_latest" = none → webUpdateDesc.latest_version rec = none)
    ∧ (rec.lookup "FTL_current" = none → ftlUpdateDesc.current_version rec = none)
    ∧ (rec.lookup "FTL_latest" = none → ftlUpdateDesc.latest_version rec = none)
    ∧ (rec.lookup "core_current" = none →
        (PiHoleUpdateEntity.mk coreUpdateDesc (PyVersions.dict rec)).current_version = none) := by
  refine ⟨fun h => ?_, fun h => ?_, fun h => ?_, fun h => ?_, fun h => ?_,
    fun h => ?_, fun h => ?_⟩ <;>
    simp [coreUpdateDesc, webUpdateDesc, ftlUpdateDesc,
      PiHoleUpdateEntity.current_version, h]

/-- Witness for C8: a record holding only an unrelated key. -/
theorem missing_field_projection_safe_witness :
    ([("other", "1")] : List (String × String)).lookup "core_current" = none
    ∧ coreUpdateDesc.current_version [("other", "1")] = none :=
  ⟨by decide, (missing_field_projection_safe [("other", "1")]).1 (by decide)⟩

end PiHole
